import Mathlib

/-!
Verification of the vkMemBench GPU bandwidth benchmark
(`src/vkcontext.hh`, `src/vkcontext.cc`, `src/vkmembench.cc`).

The Vulkan driver is an external collaborator: each driver call is
modelled by parameters describing the driver's answer (the device's
memory types, its queue families, whether an allocation or a bind
succeeds, the timestamp values read back).  The wrapper code of the
repository is embedded shallowly, one Lean definition per C++
function, following the source line by line.  Machine integers are
`Nat` with explicit `% 2^32` / `% 2^64` where overflow matters.
-/

/-! ## Vulkan constants (from `vulkan_core.h`) -/

def VK_QUEUE_GRAPHICS_BIT : Nat := 1
def VK_QUEUE_COMPUTE_BIT : Nat := 2
def VK_QUEUE_TRANSFER_BIT : Nat := 4

def VK_MEMORY_PROPERTY_DEVICE_LOCAL_BIT : Nat := 1
def VK_MEMORY_PROPERTY_HOST_VISIBLE_BIT : Nat := 2
def VK_MEMORY_PROPERTY_HOST_COHERENT_BIT : Nat := 4
def VK_MEMORY_PROPERTY_HOST_CACHED_BIT : Nat := 8

def UINT32_MOD : Nat := 2 ^ 32
def UINT64_MOD : Nat := 2 ^ 64

/-- Outcome of running a piece of the C++ code: normal return,
a thrown `std::runtime_error` carrying its message string, or a
failed `assert`. -/
inductive Outcome (α : Type) where
  | ok : α → Outcome α
  | error : String → Outcome α
  | assertFailed : Outcome α
deriving DecidableEq, Repr

/-! ## `Context::find_memory_type` (vkcontext.cc:182-192)

The driver's memory types are the list of their `propertyFlags`
words, in index order.  The loop returns the first index `i` with
`properties.memoryTypes[i].propertyFlags == flags` (exact equality —
the masked comparison is present in the source only as a commented-out
line), and `{}` (none) when the loop finishes. -/

def findMemoryTypeLoop (flags : Nat) : List Nat → Nat → Option Nat
  | [], _ => none
  | t :: ts, i => if t = flags then some i else findMemoryTypeLoop flags ts (i + 1)

def find_memory_type (memoryTypes : List Nat) (flags : Nat) : Option Nat :=
  findMemoryTypeLoop flags memoryTypes 0

lemma findMemoryTypeLoop_some (flags : Nat) (ts : List Nat) (k i : Nat)
    (h : findMemoryTypeLoop flags ts k = some i) :
    k ≤ i ∧ ts.get? (i - k) = some flags ∧
      ∀ j, j < i - k → ts.get? j ≠ some flags := by
  induction ts generalizing k with
  | nil => simp [findMemoryTypeLoop] at h
  | cons t ts ih =>
    by_cases ht : t = flags
    · simp [findMemoryTypeLoop, ht] at h
      subst h
      refine ⟨le_refl _, ?_, ?_⟩
      · simp [ht]
      · intro j hj
        omega
    · simp [findMemoryTypeLoop, ht] at h
      obtain ⟨hk, hget, hmin⟩ := ih (k + 1) h
      refine ⟨by omega, ?_, ?_⟩
      · have : i - k = (i - (k + 1)) + 1 := by omega
        rw [this]
        simpa using hget
      · intro j hj
        cases j with
        | zero => simpa using ht
        | succ j =>
          have : j < i - (k + 1) := by omega
          simpa using hmin j this

lemma findMemoryTypeLoop_none (flags : Nat) (ts : List Nat) (k : Nat)
    (h : findMemoryTypeLoop flags ts k = none) :
    ∀ t ∈ ts, t ≠ flags := by
  induction ts generalizing k with
  | nil => simp
  | cons t ts ih =>
    by_cases ht : t = flags
    · simp [findMemoryTypeLoop, ht] at h
    · simp [findMemoryTypeLoop, ht] at h
      intro u hu
      rw [List.mem_cons] at hu
      rcases hu with rfl | hu
      · exact ht
      · exact ih (k + 1) h u hu

lemma findMemoryTypeLoop_mem (flags : Nat) (ts : List Nat) (k : Nat)
    (h : ∀ t ∈ ts, t ≠ flags) :
    findMemoryTypeLoop flags ts k = none := by
  induction ts generalizing k with
  | nil => rfl
  | cons t ts ih =>
    have ht : t ≠ flags := h t (List.mem_cons_self t ts)
    simp [findMemoryTypeLoop, ht]
    exact ih (k + 1) (fun u hu => h u (List.mem_cons_of_mem t hu))

/-- **C1.** `find_memory_type` returns the index of the first (lowest-index)
memory type whose property flags are exactly equal to `requiredFlags`:
whenever it returns `some i`, type `i` has flags exactly `requiredFlags`
and every lower index does not; and it returns `none` precisely when no
type's flags are exactly equal — in particular even when a type whose
flags are a strict superset of `requiredFlags` exists. -/
theorem find_memory_type_first_exact_match (memoryTypes : List Nat) (requiredFlags : Nat) :
    (∀ i, find_memory_type memoryTypes requiredFlags = some i →
      memoryTypes.get? i = some requiredFlags ∧
        ∀ j, j < i → memoryTypes.get? j ≠ some requiredFlags) ∧
    (find_memory_type memoryTypes requiredFlags = none ↔
      ∀ t ∈ memoryTypes, t ≠ requiredFlags) := by
  constructor
  · intro i h
    obtain ⟨-, hget, hmin⟩ := findMemoryTypeLoop_some requiredFlags memoryTypes 0 i h
    exact ⟨by simpa using hget, fun j hj => by simpa using hmin j (by omega)⟩
  · constructor
    · exact findMemoryTypeLoop_none requiredFlags memoryTypes 0
    · exact findMemoryTypeLoop_mem requiredFlags memoryTypes 0

/-- Witness for C1: on a device whose types are
`[DEVICE_LOCAL, DEVICE_LOCAL|HOST_VISIBLE|HOST_COHERENT|HOST_CACHED, HOST_VISIBLE|HOST_COHERENT]`,
searching `HOST_VISIBLE|HOST_COHERENT` (= 6) skips the strict superset at
index 1 and returns index 2; searching `HOST_VISIBLE` (= 2) alone finds
nothing although supersets exist. -/
theorem find_memory_type_first_exact_match_witness :
    ([1, 15, 6].get? 2 = some 6 ∧ ∀ j, j < 2 → [1, 15, 6].get? j ≠ some 6) ∧
      (find_memory_type [1, 15, 6] 2 = none ↔ ∀ t ∈ [1, 15, 6], t ≠ 2) :=
  ⟨(find_memory_type_first_exact_match [1, 15, 6] 6).1 2 (by decide),
   (find_memory_type_first_exact_match [1, 15, 6] 2).2⟩

/-! ## `Context::create_device` — physical device selection (vkcontext.cc:118-124)

The code calls `vkEnumeratePhysicalDevices` with `physical_device_count`
initialised to 1 and a one-element output slot.  Per the Vulkan
specification of that entry point, the driver writes
`min(requested, available)` handles, overwrites the count with the
number written, and returns `VK_INCOMPLETE` when it wrote fewer than
`available` (VK_SUCCESS otherwise).  `deviceCount` below is the number
of physical devices the driver actually has; error results of the
enumeration call itself (out-of-memory) are not modelled. -/

inductive VkEnumResult where
  | success
  | incomplete
deriving DecidableEq, Repr

def vkEnumeratePhysicalDevicesCap1 (deviceCount : Nat) : VkEnumResult × Nat :=
  if deviceCount = 0 then (VkEnumResult.success, 0)
  else if deviceCount = 1 then (VkEnumResult.success, 1)
  else (VkEnumResult.incomplete, 1)

def select_physical_device (deviceCount : Nat) : Outcome Unit :=
  let r := vkEnumeratePhysicalDevicesCap1 deviceCount
  if (r.1 ≠ VkEnumResult.success ∧ r.1 ≠ VkEnumResult.incomplete) ∨ r.2 ≠ 1 then
    Outcome.error "unable to find physical device"
  else
    Outcome.ok ()

/-- **C2 counterexample.** With two physical devices enumerated, device
selection succeeds (the enumeration clamps the written count to the
requested capacity of one and returns `VK_INCOMPLETE`, which the code
accepts), contradicting the claim that any count other than one fails
with `DeviceSelectionError`. -/
theorem select_physical_device_two_devices_succeeds :
    select_physical_device 2 = Outcome.ok () := by decide

/-- **C2 (amended).** Context construction fails with
`DeviceSelectionError` ("unable to find physical device") exactly when
the driver enumerates zero physical devices; whenever one or more
devices exist, the count written back is clamped to one, the
`VK_INCOMPLETE` result is accepted, and construction proceeds past
device selection using the first enumerated device. -/
theorem select_physical_device_fails_iff_zero (deviceCount : Nat) :
    (select_physical_device deviceCount = Outcome.error "unable to find physical device"
        ↔ deviceCount = 0) ∧
    (1 ≤ deviceCount → select_physical_device deviceCount = Outcome.ok ()) := by
  constructor
  · constructor
    · intro h
      by_contra hne
      have h1 : deviceCount = 1 ∨ 2 ≤ deviceCount := by omega
      rcases h1 with h1 | h1
      · simp [select_physical_device, vkEnumeratePhysicalDevicesCap1, h1] at h
      · have h0 : deviceCount ≠ 0 := by omega
        have h1' : deviceCount ≠ 1 := by omega
        simp [select_physical_device, vkEnumeratePhysicalDevicesCap1, h0, h1'] at h
    · intro h
      simp [select_physical_device, vkEnumeratePhysicalDevicesCap1, h]
  · intro h
    have h0 : deviceCount ≠ 0 := by omega
    by_cases h1 : deviceCount = 1
    · simp [select_physical_device, vkEnumeratePhysicalDevicesCap1, h1]
    · simp [select_physical_device, vkEnumeratePhysicalDevicesCap1, h0, h1]

/-- Witness for the amended C2: zero devices fail, three devices are
accepted. -/
theorem select_physical_device_fails_iff_zero_witness :
    (select_physical_device 0 = Outcome.error "unable to find physical device") ∧
      select_physical_device 3 = Outcome.ok () :=
  ⟨((select_physical_device_fails_iff_zero 0).1).2 rfl,
   (select_physical_device_fails_iff_zero 3).2 (by decide)⟩

/-! ## `Context::create_device` — compute queue discovery (vkcontext.cc:126-148)

The driver's queue families are the list of their `queueFlags` words in
index order.  The loop skips family `i` unless
`queueFlags == (VK_QUEUE_COMPUTE_BIT | VK_QUEUE_TRANSFER_BIT)` (exact
equality, value 6), takes the first match and breaks; if none matches
the constructor throws. -/

def findComputeQueueLoop : List Nat → Nat → Option Nat
  | [], _ => none
  | qf :: qfs, i =>
    if qf ≠ (VK_QUEUE_COMPUTE_BIT ||| VK_QUEUE_TRANSFER_BIT) then
      findComputeQueueLoop qfs (i + 1)
    else
      some i

def select_compute_queue (queueFamilies : List Nat) : Outcome Nat :=
  match findComputeQueueLoop queueFamilies 0 with
  | some i => Outcome.ok i
  | none => Outcome.error "unable to find compute-capable queue"

lemma findComputeQueueLoop_eq (qfs : List Nat) (k : Nat) :
    findComputeQueueLoop qfs k =
      findMemoryTypeLoop (VK_QUEUE_COMPUTE_BIT ||| VK_QUEUE_TRANSFER_BIT) qfs k := by
  induction qfs generalizing k with
  | nil => rfl
  | cons qf qfs ih =>
    by_cases h : qf = VK_QUEUE_COMPUTE_BIT ||| VK_QUEUE_TRANSFER_BIT
    · simp [findComputeQueueLoop, findMemoryTypeLoop, h]
    · simp [findComputeQueueLoop, findMemoryTypeLoop, h]
      exact ih (k + 1)

/-- **C3.** Queue discovery selects the queue family with the lowest index
whose capability flags are exactly `COMPUTE|TRANSFER` (= 6): whenever it
returns index `i`, family `i` has flags exactly 6 and every lower index
does not; and construction fails with `NoComputeQueueError` ("unable to
find compute-capable queue") precisely when no family's flags equal 6
exactly — in particular even when a superset-capable family such as
graphics+compute+transfer (= 7) exists. -/
theorem select_compute_queue_first_exact_match (queueFamilies : List Nat) :
    (∀ i, select_compute_queue queueFamilies = Outcome.ok i →
      queueFamilies.get? i = some (VK_QUEUE_COMPUTE_BIT ||| VK_QUEUE_TRANSFER_BIT) ∧
        ∀ j, j < i →
          queueFamilies.get? j ≠ some (VK_QUEUE_COMPUTE_BIT ||| VK_QUEUE_TRANSFER_BIT)) ∧
    (select_compute_queue queueFamilies = Outcome.error "unable to find compute-capable queue"
      ↔ ∀ qf ∈ queueFamilies, qf ≠ (VK_QUEUE_COMPUTE_BIT ||| VK_QUEUE_TRANSFER_BIT)) := by
  constructor
  · intro i h
    have hfind : findComputeQueueLoop queueFamilies 0 = some i := by
      unfold select_compute_queue at h
      cases hcase : findComputeQueueLoop queueFamilies 0 with
      | some j => rw [hcase] at h; cases h; rfl
      | none => rw [hcase] at h; cases h
    rw [findComputeQueueLoop_eq] at hfind
    obtain ⟨-, hget, hmin⟩ :=
      findMemoryTypeLoop_some (VK_QUEUE_COMPUTE_BIT ||| VK_QUEUE_TRANSFER_BIT)
        queueFamilies 0 i hfind
    exact ⟨by simpa using hget, fun j hj => by simpa using hmin j (by omega)⟩
  · constructor
    · intro h
      have hfind : findComputeQueueLoop queueFamilies 0 = none := by
        unfold select_compute_queue at h
        cases hcase : findComputeQueueLoop queueFamilies 0 with
        | some j => rw [hcase] at h; cases h
        | none => rfl
      rw [findComputeQueueLoop_eq] at hfind
      exact findMemoryTypeLoop_none _ queueFamilies 0 hfind
    · intro h
      have hfind : findComputeQueueLoop queueFamilies 0 = none := by
        rw [findComputeQueueLoop_eq]
        exact findMemoryTypeLoop_mem _ queueFamilies 0 h
      simp [select_compute_queue, hfind]

/-- Witness for C3: with families
`[graphics|compute|transfer (=7), compute|transfer (=6), compute|transfer (=6)]`
the superset family at index 0 is skipped and index 1 is chosen; with only
the combined family `[7]`, construction fails although a
superset-capable queue exists. -/
theorem select_compute_queue_first_exact_match_witness :
    ([7, 6, 6].get? 1 = some (VK_QUEUE_COMPUTE_BIT ||| VK_QUEUE_TRANSFER_BIT) ∧
      ∀ j, j < 1 →
        [7, 6, 6].get? j ≠ some (VK_QUEUE_COMPUTE_BIT ||| VK_QUEUE_TRANSFER_BIT)) ∧
    (select_compute_queue [7] = Outcome.error "unable to find compute-capable queue"
      ↔ ∀ qf ∈ [7], qf ≠ (VK_QUEUE_COMPUTE_BIT ||| VK_QUEUE_TRANSFER_BIT)) :=
  ⟨(select_compute_queue_first_exact_match [7, 6, 6]).1 1 (by decide),
   (select_compute_queue_first_exact_match [7]).2⟩

/-! ## `Buffer` (vkcontext.hh:12-36, vkcontext.cc:13-65)

`BufferState` is the mutable state of one `Buffer` object: `m_size`
(a `std::uint32_t`, fixed at construction), `m_allocation`
(`std::optional<VkDeviceMemory>`, modelled as `Option Nat` over
abstract memory handles) and `m_mapped`.  The `const` members
`m_context` and `m_handle` carry no state relevant to the claims.
The driver's answers are passed as parameters: `allocResult` is the
handle produced by `vkAllocateMemory` (`none` = failure), `bindOk`
whether `vkBindBufferMemory` succeeds, `mapOk` whether `vkMapMemory`
succeeds.  Each operation returns the buffer state after the call
together with its outcome — C++ member mutations made before a throw
persist in the object. -/

structure BufferState where
  m_size : Nat
  m_allocation : Option Nat
  m_mapped : Bool
deriving DecidableEq, Repr

namespace Buffer

/-- `Buffer::allocate` (vkcontext.cc:20-47): looks up a memory type by
exact flag match, allocates, records the allocation in `m_allocation`,
then binds.  There is no `assert` in this function — in particular
no check that the buffer is not already allocated. -/
def allocate (memoryTypes : List Nat) (allocResult : Option Nat) (bindOk : Bool)
    (b : BufferState) (memory_type_mask : Nat) : BufferState × Outcome Nat :=
  match find_memory_type memoryTypes memory_type_mask with
  | none => (b, Outcome.error "unable to find memory type")
  | some _memory_type =>
    match allocResult with
    | none => (b, Outcome.error "unable to allocate buffer")
    | some buffer_memory =>
      let b' := { b with m_allocation := some buffer_memory }
      if bindOk then
        (b', Outcome.ok buffer_memory)
      else
        (b', Outcome.error "unable to bind buffer")

/-- `Buffer::mmap` (vkcontext.cc:49-59): `assert(m_allocation)`,
`assert(!m_mapped)`, then `vkMapMemory`; on success sets `m_mapped`
and returns a span of `m_size` bytes (the returned `Nat` is the span
length). -/
def mmap (mapOk : Bool) (b : BufferState) : BufferState × Outcome Nat :=
  if b.m_allocation.isNone then
    (b, Outcome.assertFailed)
  else if b.m_mapped then
    (b, Outcome.assertFailed)
  else if mapOk then
    ({ b with m_mapped := true }, Outcome.ok b.m_size)
  else
    (b, Outcome.error "unable to map memory")

/-- `Buffer::munmap` (vkcontext.cc:61-65): `assert(m_mapped)`, then
clears `m_mapped` and calls `vkUnmapMemory` (which returns nothing). -/
def munmap (b : BufferState) : BufferState × Outcome Unit :=
  if b.m_mapped then
    ({ b with m_mapped := false }, Outcome.ok ())
  else
    (b, Outcome.assertFailed)

end Buffer

/-- Driver calls issued by `Buffer::~Buffer`. -/
inductive DriverCall where
  | freeMemory : Nat → DriverCall
  | destroyBuffer : DriverCall
deriving DecidableEq, Repr

/-- `Buffer::~Buffer` (vkcontext.cc:13-18): frees `m_allocation` when
present, then destroys the buffer handle, in that order. -/
def bufferDestructor (b : BufferState) : List DriverCall :=
  (match b.m_allocation with
   | some m => [DriverCall.freeMemory m]
   | none => []) ++ [DriverCall.destroyBuffer]

/-- **C5 counterexample.** Calling `allocate` on a buffer that is
already allocated (here holding memory handle 1) does not trip any
assertion and is not rejected: with a driver that hands out handle 2
and a successful bind, the second call returns normally and overwrites
`m_allocation` with the new handle. -/
theorem allocate_twice_not_asserted :
    Buffer.allocate [6] (some 2) true
        { m_size := 16, m_allocation := some 1, m_mapped := false } 6 =
      ({ m_size := 16, m_allocation := some 2, m_mapped := false }, Outcome.ok 2) := by
  decide

/-- **C5 (amended).** Calling `Buffer.allocate` a second time on a
buffer that has already been allocated is not enforced at all: the
function contains no assertion or precondition check on
`m_allocation`, never returns an assertion failure for any input, and
on a successful driver path the second call simply overwrites the
stored allocation handle (leaking the first allocation). -/
theorem allocate_no_precondition_check (memoryTypes : List Nat)
    (allocResult : Option Nat) (bindOk : Bool) (b : BufferState) (mask : Nat) :
    (Buffer.allocate memoryTypes allocResult bindOk b mask).2 ≠ Outcome.assertFailed ∧
    (∀ i m, find_memory_type memoryTypes mask = some i → allocResult = some m →
      bindOk = true →
      Buffer.allocate memoryTypes allocResult bindOk b mask =
        ({ b with m_allocation := some m }, Outcome.ok m)) := by
  constructor
  · unfold Buffer.allocate
    cases hfind : find_memory_type memoryTypes mask with
    | none => simp
    | some i =>
      cases allocResult with
      | none => simp
      | some m =>
        cases bindOk <;> simp
  · intro i m hfind halloc hbind
    subst halloc; subst hbind
    simp [Buffer.allocate, hfind]

/-- Witness for the amended C5: concrete second `allocate` on an
already-allocated buffer returns `ok` (never an assertion failure) and
overwrites handle 5 with handle 9. -/
theorem allocate_no_precondition_check_witness :
    (Buffer.allocate [6] (some 9) true
        { m_size := 4, m_allocation := some 5, m_mapped := false } 6).2 ≠
      Outcome.assertFailed ∧
    Buffer.allocate [6] (some 9) true
        { m_size := 4, m_allocation := some 5, m_mapped := false } 6 =
      ({ m_size := 4, m_allocation := some 9, m_mapped := false }, Outcome.ok 9) :=
  ⟨(allocate_no_precondition_check [6] (some 9) true
      { m_size := 4, m_allocation := some 5, m_mapped := false } 6).1,
   (allocate_no_precondition_check [6] (some 9) true
      { m_size := 4, m_allocation := some 5, m_mapped := false } 6).2 0 9 rfl rfl rfl⟩

/-- **C7.** `Buffer.mmap` requires a prior successful `allocate`
(`m_allocation` present) and requires the buffer not to be already
mapped — both enforced as assertions, so an unallocated or
already-mapped buffer yields an assertion failure, not a recoverable
error; under those preconditions a successful map returns a byte view
of exactly `m_size` bytes with the buffer now marked mapped, and the
only failure is `MapError` ("unable to map memory") on driver
rejection, which leaves the state unchanged. -/
theorem mmap_preconditions_and_view (mapOk : Bool) (b : BufferState) :
    (b.m_allocation = none → Buffer.mmap mapOk b = (b, Outcome.assertFailed)) ∧
    (b.m_mapped = true → Buffer.mmap mapOk b = (b, Outcome.assertFailed)) ∧
    (b.m_allocation.isSome = true → b.m_mapped = false →
      Buffer.mmap mapOk b =
        if mapOk then ({ b with m_mapped := true }, Outcome.ok b.m_size)
        else (b, Outcome.error "unable to map memory")) := by
  refine ⟨?_, ?_, ?_⟩
  · intro h
    simp [Buffer.mmap, h]
  · intro h
    by_cases halloc : b.m_allocation.isNone <;> simp [Buffer.mmap, halloc, h]
  · intro halloc hmap
    have h1 : b.m_allocation.isNone = false := by
      cases hcase : b.m_allocation <;> simp [hcase] at halloc ⊢
    cases mapOk <;> simp [Buffer.mmap, h1, hmap]

/-- Witness for C7: an unallocated buffer asserts; an allocated,
unmapped buffer of size 32 maps to a view of exactly 32 bytes. -/
theorem mmap_preconditions_and_view_witness :
    Buffer.mmap true { m_size := 32, m_allocation := none, m_mapped := false } =
      ({ m_size := 32, m_allocation := none, m_mapped := false }, Outcome.assertFailed) ∧
    Buffer.mmap true { m_size := 32, m_allocation := some 3, m_mapped := false } =
      ({ m_size := 32, m_allocation := some 3, m_mapped := true }, Outcome.ok 32) :=
  ⟨(mmap_preconditions_and_view true
      { m_size := 32, m_allocation := none, m_mapped := false }).1 rfl,
   ((mmap_preconditions_and_view true
      { m_size := 32, m_allocation := some 3, m_mapped := false }).2.2 rfl rfl)⟩

/-- **C8.** `Buffer.allocate` records the allocation handle in
`m_allocation` before attempting the bind: when the memory-type lookup
and the driver allocation succeed but the bind fails, the call raises
`BindError` ("unable to bind buffer") while the buffer is left holding
the allocated memory, and the destructor still frees that memory
before destroying the buffer handle. -/
theorem allocate_bind_failure_keeps_allocation (memoryTypes : List Nat)
    (mask i mem : Nat) (b : BufferState)
    (hfind : find_memory_type memoryTypes mask = some i) :
    Buffer.allocate memoryTypes (some mem) false b mask =
      ({ b with m_allocation := some mem }, Outcome.error "unable to bind buffer") ∧
    ({ b with m_allocation := some mem } : BufferState).m_allocation = some mem ∧
    bufferDestructor { b with m_allocation := some mem } =
      [DriverCall.freeMemory mem, DriverCall.destroyBuffer] := by
  refine ⟨?_, rfl, rfl⟩
  simp [Buffer.allocate, hfind]

/-- Witness for C8: a fresh 16-byte buffer whose bind fails after
memory handle 7 was allocated keeps handle 7, and its destructor frees
handle 7 then destroys the buffer. -/
theorem allocate_bind_failure_keeps_allocation_witness :
    Buffer.allocate [6] (some 7) false
        { m_size := 16, m_allocation := none, m_mapped := false } 6 =
      ({ m_size := 16, m_allocation := some 7, m_mapped := false },
        Outcome.error "unable to bind buffer") ∧
    ({ m_size := 16, m_allocation := some 7, m_mapped := false } : BufferState).m_allocation
        = some 7 ∧
    bufferDestructor { m_size := 16, m_allocation := some 7, m_mapped := false } =
      [DriverCall.freeMemory 7, DriverCall.destroyBuffer] :=
  allocate_bind_failure_keeps_allocation [6] 6 0 7
    { m_size := 16, m_allocation := none, m_mapped := false } rfl

/-- One successful `mmap` followed by `munmap` on the same buffer. -/
def mmapMunmapCycle (b : BufferState) : BufferState :=
  (Buffer.munmap (Buffer.mmap true b).1).1

/-- **C10.** On an allocated, unmapped buffer, a successful `mmap`
followed by `munmap` succeeds and restores exactly the
allocated-and-not-mapped starting state, so `mmap`'s precondition
holds again and the `mmap`/`munmap` cycle can be repeated any number
of times without reallocation, always returning to the same state. -/
theorem mmap_munmap_roundtrip (b : BufferState)
    (halloc : b.m_allocation.isSome = true) (hmap : b.m_mapped = false) :
    (Buffer.mmap true b).2 = Outcome.ok b.m_size ∧
    (Buffer.munmap (Buffer.mmap true b).1).2 = Outcome.ok () ∧
    mmapMunmapCycle b = b ∧
    ∀ n, mmapMunmapCycle^[n] b = b := by
  have h1 : b.m_allocation.isNone = false := by
    cases hcase : b.m_allocation <;> simp [hcase] at halloc ⊢
  have hmmap : Buffer.mmap true b = ({ b with m_mapped := true }, Outcome.ok b.m_size) := by
    simp [Buffer.mmap, h1, hmap]
  have hcycle : mmapMunmapCycle b = b := by
    cases b
    simp_all [mmapMunmapCycle, Buffer.munmap]
  refine ⟨by rw [hmmap], ?_, hcycle, ?_⟩
  · rw [hmmap]
    simp [Buffer.munmap]
  · intro n
    induction n with
    | zero => rfl
    | succ n ih => rw [Function.iterate_succ_apply, hcycle, ih]

/-- Witness for C10: an allocated 8-byte buffer maps to an 8-byte view,
unmaps cleanly, and the cycle is the identity on its state (also after
5 repetitions). -/
theorem mmap_munmap_roundtrip_witness :
    (Buffer.mmap true { m_size := 8, m_allocation := some 2, m_mapped := false }).2 =
      Outcome.ok 8 ∧
    (Buffer.munmap
        (Buffer.mmap true { m_size := 8, m_allocation := some 2, m_mapped := false }).1).2 =
      Outcome.ok () ∧
    mmapMunmapCycle { m_size := 8, m_allocation := some 2, m_mapped := false } =
      { m_size := 8, m_allocation := some 2, m_mapped := false } ∧
    ∀ n, mmapMunmapCycle^[n] { m_size := 8, m_allocation := some 2, m_mapped := false } =
      { m_size := 8, m_allocation := some 2, m_mapped := false } :=
  mmap_munmap_roundtrip { m_size := 8, m_allocation := some 2, m_mapped := false } rfl rfl

/-! ## `Context::create_fence` (vkcontext.cc:208-216)

`VkFenceCreateInfo` is zero-initialised apart from `sType`, so the
`VK_FENCE_CREATE_SIGNALED_BIT` flag is not set and a created fence
starts unsignaled.  `driverOk` is whether `vkCreateFence` returns
`VK_SUCCESS`; the code discards that result (the source carries a
`// TODO: check for error` comment) and returns the fence either way. -/

structure FenceState where
  signaled : Bool
deriving DecidableEq, Repr

def create_fence (driverOk : Bool) : Outcome FenceState :=
  match driverOk with
  | true => Outcome.ok { signaled := false }
  | false => Outcome.ok { signaled := false }

/-- **C6 (code evaluated at the failing input).** `create_fence`
returns a fence in the unsignaled state, but when the driver rejects
fence creation the call still returns normally — the `VkResult` of
`vkCreateFence` is discarded (the source marks this with a
`TODO: check for error` comment), so no `FenceCreationError` is ever
raised, contradicting the documented propagation policy that every
driver-reported failure terminates immediately. -/
theorem create_fence_ignores_driver_failure :
    create_fence false = Outcome.ok { signaled := false } ∧
      create_fence true = Outcome.ok { signaled := false } := by
  decide

/-! ## `Context::create_buffer` (vkcontext.cc:194-206)

Takes a `std::uint32_t` size, creates the `VkBuffer` (`createOk` is the
driver's answer) and returns an unallocated, unmapped `Buffer` whose
`m_size` is that 32-bit value. -/

def create_buffer (createOk : Bool) (size : Nat) : Outcome BufferState :=
  if createOk then
    Outcome.ok { m_size := size, m_allocation := none, m_mapped := false }
  else
    Outcome.error "unable to allocate buffer"

/-! ## `copy_benchmark` (vkmembench.cc:16-101)

`buffer_size` is the function's `std::uint64_t` parameter.  The two
`context.create_buffer(buffer_size, usage)` calls narrow it implicitly
to `std::uint32_t` (value mod 2^32), while the recorded
`VkBufferCopy::size` field is a `VkDeviceSize` (64 bits) and receives
the full value.  The success-path allocation, fill and timestamp-pool
setup do not change any of these recorded values and are omitted. -/

structure VkBufferCopy where
  srcOffset : Nat
  dstOffset : Nat
  size : Nat
deriving DecidableEq, Repr

structure BenchSetup where
  src : BufferState
  dst : BufferState
  copy : VkBufferCopy
deriving DecidableEq, Repr

def copy_benchmark_setup (buffer_size : Nat) : Outcome BenchSetup :=
  match create_buffer true (buffer_size % UINT32_MOD) with
  | Outcome.ok src =>
    match create_buffer true (buffer_size % UINT32_MOD) with
    | Outcome.ok dst =>
      Outcome.ok
        { src := src, dst := dst,
          copy := { srcOffset := 0, dstOffset := 0, size := buffer_size % UINT64_MOD } }
    | Outcome.error e => Outcome.error e
    | Outcome.assertFailed => Outcome.assertFailed
  | Outcome.error e => Outcome.error e
  | Outcome.assertFailed => Outcome.assertFailed

/-- **C9.** The buffer byte size travels through `create_buffer` as a
32-bit value while `copy_benchmark` accepts a 64-bit size: for every
requested size of 2^32 or more, both created buffers record a size
equal to the requested size modulo 2^32 (hence different from the
requested size), while the recorded copy command still carries the
full 64-bit size. -/
theorem buffer_size_truncated_copy_size_full (S : Nat) (hS : S < UINT64_MOD)
    (hbig : UINT32_MOD ≤ S) :
    ∃ setup, copy_benchmark_setup S = Outcome.ok setup ∧
      setup.src.m_size = S % UINT32_MOD ∧
      setup.dst.m_size = S % UINT32_MOD ∧
      setup.src.m_size ≠ S ∧
      setup.copy.size = S := by
  refine ⟨_, rfl, ?_, ?_, ?_, ?_⟩
  · rfl
  · rfl
  · show S % UINT32_MOD ≠ S
    have hlt : S % UINT32_MOD < UINT32_MOD := Nat.mod_lt _ (by norm_num [UINT32_MOD])
    omega
  · show S % UINT64_MOD = S
    exact Nat.mod_eq_of_lt hS

/-- Witness for C9: requesting exactly 2^32 bytes records buffers of
size 0 but a copy command of the full 2^32 bytes. -/
theorem buffer_size_truncated_copy_size_full_witness :
    ∃ setup, copy_benchmark_setup (2 ^ 32) = Outcome.ok setup ∧
      setup.src.m_size = 2 ^ 32 % UINT32_MOD ∧
      setup.dst.m_size = 2 ^ 32 % UINT32_MOD ∧
      setup.src.m_size ≠ 2 ^ 32 ∧
      setup.copy.size = 2 ^ 32 :=
  buffer_size_truncated_copy_size_full (2 ^ 32)
    (by norm_num [UINT64_MOD]) (by norm_num [UINT32_MOD])

/-! ## `copy_benchmark` measurement loop (vkmembench.cc:76-96)

`ts count` is the pair of 64-bit timestamps `(timestamps[0],
timestamps[1])` read back from the query pool on iteration `count`;
`period` is `timestampPeriod` (nanoseconds per tick).  Floating-point
values (`float period`, `double seconds`, `float total_seconds`) are
modelled as exact rationals; `timestamps[1] - timestamps[0]` is
`std::uint64_t` wraparound subtraction, and `total_bytes +=
buffer_size` is `std::uint64_t` addition. -/

def u64sub (t1 t0 : Nat) : Nat :=
  (UINT64_MOD + t1 % UINT64_MOD - t0 % UINT64_MOD) % UINT64_MOD

def iterationSeconds (period : ℚ) (t0 t1 : Nat) : ℚ :=
  (u64sub t1 t0 : ℚ) * period / 1000000000

structure BenchTotals where
  total_seconds : ℚ
  total_bytes : Nat
deriving DecidableEq, Repr

def copy_benchmark_loop (period : ℚ) (buffer_size : Nat)
    (ts : Nat → Nat × Nat) : BenchTotals :=
  (List.range 32).foldl
    (fun acc count =>
      { total_seconds := acc.total_seconds + iterationSeconds period (ts count).1 (ts count).2,
        total_bytes := (acc.total_bytes + buffer_size % UINT64_MOD) % UINT64_MOD })
    { total_seconds := 0, total_bytes := 0 }

lemma copy_benchmark_loop_foldl (period : ℚ) (buffer_size : Nat)
    (ts : Nat → Nat × Nat) (n : Nat) :
    (List.range n).foldl
        (fun (acc : BenchTotals) count =>
          { total_seconds := acc.total_seconds + iterationSeconds period (ts count).1 (ts count).2,
            total_bytes := (acc.total_bytes + buffer_size % UINT64_MOD) % UINT64_MOD })
        { total_seconds := 0, total_bytes := 0 } =
      ({ total_seconds := ∑ i ∈ Finset.range n, iterationSeconds period (ts i).1 (ts i).2,
         total_bytes := (n * buffer_size) % UINT64_MOD } : BenchTotals) := by
  induction n with
  | zero => simp
  | succ n ih =>
    rw [List.range_succ, List.foldl_append, ih]
    simp only [List.foldl_cons, List.foldl_nil]
    congr 1
    · rw [Finset.sum_range_succ]
    · rw [← Nat.add_mod, Nat.succ_mul]

lemma copy_benchmark_loop_eq (period : ℚ) (buffer_size : Nat) (ts : Nat → Nat × Nat) :
    copy_benchmark_loop period buffer_size ts =
      { total_seconds := ∑ i ∈ Finset.range 32, iterationSeconds period (ts i).1 (ts i).2,
        total_bytes := (buffer_size * 32) % UINT64_MOD } := by
  rw [copy_benchmark_loop, copy_benchmark_loop_foldl, Nat.mul_comm]

/-- **C4 counterexample.** For buffer size `S = 2^59` the 32 iterations
accumulate `total_bytes` in a `std::uint64_t`, which wraps to 0, so
`total_bytes` is *not* `S * 32 = 2^64` exactly as the claim states. -/
theorem copy_benchmark_total_bytes_wraps :
    (copy_benchmark_loop 1 (2 ^ 59) (fun _ => (0, 0))).total_bytes ≠ 2 ^ 59 * 32 := by
  rw [copy_benchmark_loop_eq]
  norm_num [UINT64_MOD]

/-- **C4 (amended).** For a fixed buffer size `S`, the measurement loop
runs exactly 32 iterations and accumulates bytes once per iteration in
64-bit arithmetic, so `total_bytes = (S * 32) mod 2^64` — equal to
`S * 32` exactly whenever `S * 32 < 2^64` (i.e. `S < 2^59`) — and
`total_seconds` is the sum over the 32 iterations of that iteration's
elapsed device time `(t1 - t0) * timestampPeriod / 1e9` seconds
(`t1 - t0` being 64-bit wraparound subtraction of the two read-back
timestamps). -/
theorem copy_benchmark_loop_totals (period : ℚ) (S : Nat) (ts : Nat → Nat × Nat) :
    (copy_benchmark_loop period S ts).total_bytes = (S * 32) % UINT64_MOD ∧
    (S * 32 < UINT64_MOD → (copy_benchmark_loop period S ts).total_bytes = S * 32) ∧
    (copy_benchmark_loop period S ts).total_seconds =
      ∑ i ∈ Finset.range 32, (u64sub (ts i).2 (ts i).1 : ℚ) * period / 1000000000 := by
  rw [copy_benchmark_loop_eq]
  exact ⟨rfl, fun h => Nat.mod_eq_of_lt h, rfl⟩

/-- Witness for the amended C4: buffer size 1 MiB with constant
timestamp deltas of 100000 ticks and a period of 1 ns/tick gives
`total_bytes = 1048576 * 32` (no wrap) and
`total_seconds = 32 * 100000 / 1e9` seconds. -/
theorem copy_benchmark_loop_totals_witness :
    (copy_benchmark_loop 1 1048576 (fun _ => (0, 100000))).total_bytes = 1048576 * 32 ∧
    (copy_benchmark_loop 1 1048576 (fun _ => (0, 100000))).total_seconds =
      ∑ i ∈ Finset.range 32,
        (u64sub ((fun (_ : Nat) => ((0 : Nat), (100000 : Nat))) i).2
            ((fun (_ : Nat) => ((0 : Nat), (100000 : Nat))) i).1 : ℚ) * 1 / 1000000000 :=
  ⟨(copy_benchmark_loop_totals 1 1048576 (fun _ => (0, 100000))).2.1
      (by norm_num [UINT64_MOD]),
   (copy_benchmark_loop_totals 1 1048576 (fun _ => (0, 100000))).2.2⟩
